import Mathlib

/-!
Verification development for the secret-room browser-side presentation
layer.  The embedded code comes from two source files:

  * src/utils/Hooks/useSoundEffect.ts — the sound-effect playback hook
    (audio lifecycle, volume clamping, randomized replay scheduling,
    stop and teardown cleanup);
  * src/app/[serverId]/components/SideBar/UserCard.tsx — the user card
    component (last-message scan, subtitle rendering, click handler,
    avatar initial).

Numbers that the TypeScript source treats as JavaScript numbers are
modelled as rationals (for volumes and the random sample) and integers
(for millisecond intervals).  The DOM audio element is modelled as a
record of the fields the hook reads and writes.  React refs and state
hooks become fields of an explicit hook-state record, and each callback
of the hook becomes a state-transition function.
-/

/-- Model of an HTMLAudioElement restricted to the fields the hook
touches: source url, volume, playback position, paused flag and loop
flag. -/
structure AudioElem where
  src : String
  volume : ℚ
  currentTime : ℚ
  paused : Bool
  loop : Bool
deriving DecidableEq, Repr

/-- State of one useSoundEffect hook instance: the audioRef and
intervalRef refs, the isActiveRef ref, and the isPlaying and
currentVolume React states.  The pending timer in intervalRef is
represented by the millisecond delay it was scheduled with. -/
structure SoundState where
  audioRef : Option AudioElem
  intervalRef : Option ℤ
  isActiveRef : Bool
  isPlaying : Bool
  currentVolume : ℚ
deriving DecidableEq, Repr

/-- Initial state of the hook on mount: no audio element, no pending
timer, active, not playing, with the initial volume from the store. -/
def initState (v : ℚ) : SoundState :=
  { audioRef := none, intervalRef := none, isActiveRef := true,
    isPlaying := false, currentVolume := v }

/-- Embeds adjustVolume (useSoundEffect.ts lines 170-183): clamp the
requested volume to the unit interval with min(1, max(0, v)), store it
as the current volume, copy it onto the audio element when one exists,
and return the clamped value. -/
def adjustVolume (newVolume : ℚ) (s : SoundState) : ℚ × SoundState :=
  let clampedVolume := min 1 (max 0 newVolume)
  let s1 := { s with currentVolume := clampedVolume }
  let s2 := match s1.audioRef with
    | some a => { s1 with audioRef := some { a with volume := clampedVolume } }
    | none => s1
  (clampedVolume, s2)

/-- Embeds the delay computation of scheduleNextPlay
(useSoundEffect.ts line 109):
Math.floor(Math.random() * (maxInterval - minInterval + 1)) + minInterval,
with the Math.random() sample passed in explicitly. -/
def randomDelay (minInterval maxInterval : ℤ) (rand : ℚ) : ℤ :=
  ⌊rand * ((maxInterval : ℚ) - (minInterval : ℚ) + 1)⌋ + minInterval

/-- Embeds playSoundEffect (useSoundEffect.ts lines 121-154), the
synchronous part: pause and rewind any previous audio element, build a
fresh element with the clamped current volume and the loop flag, store
it in audioRef and set isPlaying.  The asynchronous promise outcome is
handled separately by handlePlayOutcome. -/
def playSoundEffect (soundUrl : String) (lp : Bool) (s : SoundState) : SoundState :=
  let s0 := match s.audioRef with
    | some a => { s with audioRef := some { a with paused := true, currentTime := 0 } }
    | none => s
  let audio : AudioElem :=
    { src := soundUrl, volume := min 1 (max 0 s.currentVolume),
      currentTime := 0, paused := false, loop := lp }
  { s0 with audioRef := some audio, isPlaying := true }

/-- Embeds the promise continuation of audio.play() (useSoundEffect.ts
lines 140-143): on rejection the catch handler logs the error and
resets isPlaying; on fulfilment nothing happens.  The handler returns
the next state together with the console log lines it emits, so a
rejection never escapes as an exception. -/
def handlePlayOutcome (outcome : Except String Unit) (s : SoundState) :
    SoundState × List String :=
  match outcome with
  | Except.ok _ => (s, [])
  | Except.error e => ({ s with isPlaying := false },
      ["Error playing sound effect: " ++ e])

/-- Embeds the ended listener installed for non-looping audio
(useSoundEffect.ts lines 147-152): when the element that finished is
still the one in audioRef, clear the ref and the playing flag. -/
def onEnded (audio : AudioElem) (s : SoundState) : SoundState :=
  if s.audioRef = some audio then
    { s with audioRef := none, isPlaying := false }
  else s

/-- Embeds stopSoundEffect (useSoundEffect.ts lines 156-163): when an
audio element exists, pause it, rewind it, drop the ref and clear the
playing flag; otherwise do nothing. -/
def stopSoundEffect (s : SoundState) : SoundState :=
  match s.audioRef with
  | some _ => { s with audioRef := none, isPlaying := false }
  | none => s

/-- Embeds startRandomPlayback (useSoundEffect.ts lines 100-119):
clear any pending timer, then schedule the first random play; the new
pending timer carries the freshly drawn random delay. -/
def startRandomPlayback (minInterval maxInterval : ℤ) (rand : ℚ)
    (s : SoundState) : SoundState :=
  { s with intervalRef := some (randomDelay minInterval maxInterval rand) }

/-- Embeds the setTimeout callback of scheduleNextPlay
(useSoundEffect.ts lines 110-115): when the hook is still active, play
the sound and store exactly one successor timer in intervalRef, drawing
a fresh random delay; when inactive, do nothing.  The boolean reports
whether playSoundEffect ran. -/
def timerCallback (soundUrl : String) (lp : Bool)
    (minInterval maxInterval : ℤ) (rand : ℚ) (s : SoundState) :
    SoundState × Bool :=
  if s.isActiveRef then
    let s1 := playSoundEffect soundUrl lp s
    ({ s1 with intervalRef := some (randomDelay minInterval maxInterval rand) }, true)
  else (s, false)

/-- Models the new Audio(soundUrl) constructor: a fresh element for the
given url, paused at position zero with default volume one and no
looping. -/
def newAudio (soundUrl : String) : AudioElem :=
  { src := soundUrl, volume := 1, currentTime := 0, paused := true,
    loop := false }

/-- Embeds the preload effect body (useSoundEffect.ts lines 58-65):
construct the audio element when preloading and none exists yet, then
clamp the store volume onto whatever element is present. -/
def preloadEffect (preload : Bool) (soundUrl : String) (vol : ℚ)
    (s : SoundState) : SoundState :=
  let s1 := if preload && s.audioRef.isNone then
      { s with audioRef := some (newAudio soundUrl) }
    else s
  match s1.audioRef with
  | some a => { s1 with audioRef := some { a with volume := min 1 (max 0 vol) } }
  | none => s1

/-- Embeds the teardown cleanup (useSoundEffect.ts lines 72-80): stop
the audio, clear any pending timer and mark the hook inactive. -/
def cleanup (s : SoundState) : SoundState :=
  { stopSoundEffect s with intervalRef := none, isActiveRef := false }

/-- Chat message shape as consumed by UserCard.tsx: sender, receiver,
content, read flag and optional attachment url. -/
structure ChatMessage where
  senderId : String
  receiverId : String
  content : String
  readByReceiver : Bool
  attachmentUrl : Option String
deriving DecidableEq, Repr

/-- User record from server.types.ts (ServerUser), with lastSeen kept
abstract as an integer timestamp. -/
structure ServerUser where
  userId : String
  username : String
  isOnline : Bool
  lastSeen : ℤ
  bgColor : String
  textColor : String
deriving DecidableEq, Repr

/-- Embeds the lastMessage derivation (UserCard.tsx lines 41-46):
messages.map(m => matching ? m : null).filter(Boolean).pop().  Mapping
to an option and dropping the nones is List.filterMap, and pop takes
the last remaining element when one exists. -/
def lastMessageFor (userId : String) (messages : List ChatMessage) :
    Option ChatMessage :=
  (messages.filterMap (fun m =>
    if m.receiverId == userId || m.senderId == userId then some m
    else none)).getLast?

/-- Embeds the content rendering on UserCard.tsx line 79: content
longer than 20 characters becomes its first 20 characters followed by
an ellipsis, shorter content is shown verbatim. -/
def displayContent (s : String) : String :=
  if s.length > 20 then s.take 20 ++ "..." else s

/-- Embeds the non-typing branch of UserCard.tsx line 79: when a last
message exists, prefix owner-sent messages with You: and render the
truncated content; otherwise show the no-messages placeholder. -/
def lastMessageText (ownerId : String) (lm : Option ChatMessage) : String :=
  match lm with
  | some m => (if m.senderId == ownerId then "You: " else "") ++
      displayContent m.content
  | none => "No messages yet."

/-- Embeds the subtitle expression on UserCard.tsx line 79: the typing
indicator takes precedence over the last-message rendering. -/
def subtitleText (typingUsers : List String) (userId ownerId : String)
    (lm : Option ChatMessage) : String :=
  if typingUsers.contains userId then "Typing..."
  else lastMessageText ownerId lm

/-- Embeds the avatar initial on UserCard.tsx line 72:
username[0].toUpperCase().  Indexing an empty string yields undefined
in JavaScript, on which toUpperCase throws, so the embedding returns an
option: none is the error branch. -/
def avatarInitial (username : String) : Option String :=
  match username.data with
  | [] => none
  | c :: _ => some (Char.toUpper c).toString

/-- Observable effects of one click on a UserCard: whether the press
and open sounds were played and the argument passed to the
setCurrentlyChatting store mutation (none when it was not called). -/
structure ClickEffects where
  pressPlayed : Bool
  openPlayed : Bool
  currentlyChatting : Option ServerUser
deriving DecidableEq, Repr

/-- Embeds handleSetCurrentlyChatting (UserCard.tsx lines 48-54): play
the press sound, look the card user up in activeUsers, and when found
play the open sound and mutate the store; when not found return early
with no mutation. -/
def handleSetCurrentlyChatting (userId : String)
    (activeUsers : List ServerUser) : ClickEffects :=
  match activeUsers.find? (fun u => u.userId == userId) with
  | none =>
      { pressPlayed := true, openPlayed := false, currentlyChatting := none }
  | some u =>
      { pressPlayed := true, openPlayed := true, currentlyChatting := some u }

/-- States a useSoundEffect hook instance can actually be in: the
initial state, closed under every transition the hook performs (preload
effect, play, promise rejection, the ended listener, stop, volume
adjustment, random scheduling, timer callbacks and teardown). -/
inductive Reachable : SoundState → Prop where
  | init (v : ℚ) : Reachable (initState v)
  | preload (p : Bool) (url : String) (vol : ℚ) {s : SoundState} :
      Reachable s → Reachable (preloadEffect p url vol s)
  | play (url : String) (lp : Bool) {s : SoundState} :
      Reachable s → Reachable (playSoundEffect url lp s)
  | playRejected (e : String) {s : SoundState} :
      Reachable s → Reachable (handlePlayOutcome (Except.error e) s).1
  | ended (a : AudioElem) {s : SoundState} :
      Reachable s → Reachable (onEnded a s)
  | stop {s : SoundState} : Reachable s → Reachable (stopSoundEffect s)
  | adjust (v : ℚ) {s : SoundState} :
      Reachable s → Reachable (adjustVolume v s).2
  | startRandom (minI maxI : ℤ) (r : ℚ) {s : SoundState} :
      Reachable s → Reachable (startRandomPlayback minI maxI r s)
  | timerFire (url : String) (lp : Bool) (minI maxI : ℤ) (r : ℚ)
      {s : SoundState} :
      Reachable s → Reachable (timerCallback url lp minI maxI r s).1
  | teardown {s : SoundState} : Reachable s → Reachable (cleanup s)

/-- Hook-state invariant: whenever there is no audio element, the
playing flag is down. -/
def SoundInv (s : SoundState) : Prop :=
  s.audioRef = none → s.isPlaying = false

lemma soundInv_initState (v : ℚ) : SoundInv (initState v) := by
  intro _; rfl

lemma soundInv_preloadEffect (p : Bool) (url : String) (vol : ℚ)
    {s : SoundState} (h : SoundInv s) : SoundInv (preloadEffect p url vol s) := by
  intro hnone
  cases ha : s.audioRef with
  | some a => cases p <;> simp [preloadEffect, ha] at hnone
  | none =>
    cases p with
    | true => simp [preloadEffect, ha] at hnone
    | false =>
      simp only [preloadEffect, Bool.false_and, if_neg Bool.false_ne_true, ha]
      exact h ha

lemma soundInv_playSoundEffect (url : String) (lp : Bool)
    {s : SoundState} : SoundInv (playSoundEffect url lp s) := by
  intro hnone
  cases ha : s.audioRef <;> simp [playSoundEffect, ha] at hnone

lemma soundInv_playRejected (e : String) {s : SoundState} :
    SoundInv (handlePlayOutcome (Except.error e) s).1 := by
  intro _; rfl

lemma soundInv_onEnded (a : AudioElem) {s : SoundState} (h : SoundInv s) :
    SoundInv (onEnded a s) := by
  intro hnone
  by_cases hc : s.audioRef = some a
  · simp [onEnded, hc]
  · simp only [onEnded, if_neg hc] at hnone ⊢
    exact h hnone

lemma soundInv_stopSoundEffect {s : SoundState} (h : SoundInv s) :
    SoundInv (stopSoundEffect s) := by
  intro hnone
  cases ha : s.audioRef with
  | some a => simp [stopSoundEffect, ha]
  | none => simp only [stopSoundEffect, ha]; exact h ha

lemma soundInv_adjustVolume (v : ℚ) {s : SoundState} (h : SoundInv s) :
    SoundInv (adjustVolume v s).2 := by
  intro hnone
  cases ha : s.audioRef with
  | some a => simp [adjustVolume, ha] at hnone
  | none => simp only [adjustVolume, ha]; exact h ha

lemma soundInv_startRandomPlayback (minI maxI : ℤ) (r : ℚ)
    {s : SoundState} (h : SoundInv s) :
    SoundInv (startRandomPlayback minI maxI r s) := by
  intro hnone
  exact h hnone

lemma soundInv_timerCallback (url : String) (lp : Bool) (minI maxI : ℤ)
    (r : ℚ) {s : SoundState} (h : SoundInv s) :
    SoundInv (timerCallback url lp minI maxI r s).1 := by
  intro hnone
  by_cases hc : s.isActiveRef
  · exfalso
    cases ha : s.audioRef <;>
      simp [timerCallback, hc, playSoundEffect, ha] at hnone
  · simp only [timerCallback, if_neg hc] at hnone ⊢
    exact h hnone

lemma soundInv_cleanup {s : SoundState} (h : SoundInv s) :
    SoundInv (cleanup s) := by
  intro _
  cases ha : s.audioRef with
  | some a => simp [cleanup, stopSoundEffect, ha]
  | none => simp only [cleanup, stopSoundEffect, ha]; exact h ha

/-- Every reachable hook state satisfies the invariant. -/
lemma soundInv_of_reachable {s : SoundState} (h : Reachable s) : SoundInv s := by
  induction h with
  | init v => exact soundInv_initState v
  | preload p url vol _ ih => exact soundInv_preloadEffect p url vol ih
  | play url lp _ _ => exact soundInv_playSoundEffect url lp
  | playRejected e _ _ => exact soundInv_playRejected e
  | ended a _ ih => exact soundInv_onEnded a ih
  | stop _ ih => exact soundInv_stopSoundEffect ih
  | adjust v _ ih => exact soundInv_adjustVolume v ih
  | startRandom minI maxI r _ ih => exact soundInv_startRandomPlayback minI maxI r ih
  | timerFire url lp minI maxI r _ ih => exact soundInv_timerCallback url lp minI maxI r ih
  | teardown _ ih => exact soundInv_cleanup ih

/-- C1: for every rational v, adjustVolume returns a value in the closed
interval from 0 to 1, returns v itself when v already lies in that
interval, stores the clamped value as the current volume, and assigns it
to the audio element exactly when one exists. -/
theorem adjustVolume_clamps (v : ℚ) (s : SoundState) :
    0 ≤ (adjustVolume v s).1 ∧ (adjustVolume v s).1 ≤ 1 ∧
    (0 ≤ v → v ≤ 1 → (adjustVolume v s).1 = v) ∧
    (adjustVolume v s).2.currentVolume = (adjustVolume v s).1 ∧
    (s.audioRef = none → (adjustVolume v s).2.audioRef = none) ∧
    (∀ a, s.audioRef = some a →
      (adjustVolume v s).2.audioRef =
        some { a with volume := (adjustVolume v s).1 }) := by
  have hfst : (adjustVolume v s).1 = min 1 (max 0 v) := by
    cases ha : s.audioRef <;> simp [adjustVolume, ha]
  refine ⟨?_, ?_, ?_, ?_, ?_, ?_⟩
  · rw [hfst]
    exact le_min zero_le_one (le_max_left 0 v)
  · rw [hfst]
    exact min_le_left 1 (max 0 v)
  · intro h0 h1
    rw [hfst, max_eq_right h0, min_eq_right h1]
  · cases ha : s.audioRef <;> simp [adjustVolume, ha]
  · intro ha
    simp [adjustVolume, ha]
  · intro a ha
    simp [adjustVolume, ha]

/-- C1 witness: at v = 1 on the initial state the returned volume is 1
and no audio element exists to receive it. -/
theorem adjustVolume_clamps_witness :
    (adjustVolume 1 (initState 0)).1 = 1 ∧
    (adjustVolume 1 (initState 0)).2.audioRef = none :=
  ⟨(adjustVolume_clamps 1 (initState 0)).2.2.1 (by decide) (by decide),
   (adjustVolume_clamps 1 (initState 0)).2.2.2.2.1 rfl⟩

/-- C3: content strictly longer than 20 characters is rendered as its
first 20 characters followed by an ellipsis, content of length at most
20 is rendered verbatim. -/
theorem displayContent_truncates (s : String) :
    (s.length > 20 → displayContent s = s.take 20 ++ "...") ∧
    (s.length ≤ 20 → displayContent s = s) := by
  constructor
  · intro h
    rw [displayContent, if_pos h]
  · intro h
    rw [displayContent, if_neg (not_lt.mpr h)]

set_option maxRecDepth 4000 in
/-- C3 witness: a 26-character string is truncated to its first 20
characters plus ellipsis, and a 2-character string is shown verbatim. -/
theorem displayContent_truncates_witness :
    displayContent "abcdefghijklmnopqrstuvwxyz" = "abcdefghijklmnopqrst..." ∧
    displayContent "hi" = "hi" :=
  ⟨by rw [(displayContent_truncates "abcdefghijklmnopqrstuvwxyz").1 (by decide)]; decide,
   (displayContent_truncates "hi").2 (by decide)⟩

/-- C6: when the play promise rejects, the catch handler returns
normally with exactly one log line, resets the playing flag, and leaves
every other component of the hook state unchanged. -/
theorem handlePlayOutcome_error_contained (e : String) (s : SoundState) :
    (handlePlayOutcome (Except.error e) s).1 = { s with isPlaying := false } ∧
    (handlePlayOutcome (Except.error e) s).1.audioRef = s.audioRef ∧
    (handlePlayOutcome (Except.error e) s).1.intervalRef = s.intervalRef ∧
    (handlePlayOutcome (Except.error e) s).1.isActiveRef = s.isActiveRef ∧
    (handlePlayOutcome (Except.error e) s).1.currentVolume = s.currentVolume ∧
    (handlePlayOutcome (Except.error e) s).1.isPlaying = false ∧
    (handlePlayOutcome (Except.error e) s).2 =
      ["Error playing sound effect: " ++ e] :=
  ⟨rfl, rfl, rfl, rfl, rfl, rfl, rfl⟩

/-- C2: with minInterval at most maxInterval and a random sample in
[0,1), the scheduled delay lies within [minInterval, maxInterval], and
a timer firing while the hook is active installs exactly one successor
timer carrying such a delay. -/
theorem randomDelay_bounds (minI maxI : ℤ) (rand : ℚ)
    (hle : minI ≤ maxI) (h0 : 0 ≤ rand) (h1 : rand < 1) :
    minI ≤ randomDelay minI maxI rand ∧
    randomDelay minI maxI rand ≤ maxI ∧
    (∀ url lp s, s.isActiveRef = true →
      (timerCallback url lp minI maxI rand s).1.intervalRef =
        some (randomDelay minI maxI rand) ∧
      (timerCallback url lp minI maxI rand s).2 = true) := by
  have hRpos : (0:ℚ) < (maxI:ℚ) - (minI:ℚ) + 1 := by
    have hc : (minI:ℚ) ≤ (maxI:ℚ) := by exact_mod_cast hle
    linarith
  have hlow : 0 ≤ ⌊rand * ((maxI:ℚ) - (minI:ℚ) + 1)⌋ := by
    apply Int.le_floor.mpr
    push_cast
    exact mul_nonneg h0 (le_of_lt hRpos)
  have hup : ⌊rand * ((maxI:ℚ) - (minI:ℚ) + 1)⌋ < maxI - minI + 1 := by
    apply Int.floor_lt.mpr
    push_cast
    calc rand * ((maxI:ℚ) - (minI:ℚ) + 1)
        < 1 * ((maxI:ℚ) - (minI:ℚ) + 1) := mul_lt_mul_of_pos_right h1 hRpos
      _ = (maxI:ℚ) - (minI:ℚ) + 1 := one_mul _
  refine ⟨?_, ?_, ?_⟩
  · unfold randomDelay
    linarith
  · unfold randomDelay
    linarith
  · intro url lp s hs
    constructor <;> simp [timerCallback, hs]

/-- C2 witness: with the default intervals and the random sample 0 the
scheduled delay stays within bounds. -/
theorem randomDelay_bounds_witness :
    (5000:ℤ) ≤ randomDelay 5000 15000 0 ∧ randomDelay 5000 15000 0 ≤ 15000 :=
  ⟨(randomDelay_bounds 5000 15000 0 (by decide) (by decide) (by decide)).1,
   (randomDelay_bounds 5000 15000 0 (by decide) (by decide) (by decide)).2.1⟩

/-- C4: on any reachable hook state a second stop is a no-op, the
playing flag ends up false, and a stop on a state with no audio element
changes nothing; stop is a total function, so no error is raised. -/
theorem stopSoundEffect_idempotent {s : SoundState} (h : Reachable s) :
    (stopSoundEffect (stopSoundEffect s)).isPlaying = false ∧
    stopSoundEffect (stopSoundEffect s) = stopSoundEffect s ∧
    (s.audioRef = none → stopSoundEffect s = s) := by
  have hfix : ∀ t : SoundState, t.audioRef = none → stopSoundEffect t = t := by
    intro t ht
    simp [stopSoundEffect, ht]
  have hnone : (stopSoundEffect s).audioRef = none := by
    cases ha : s.audioRef <;> simp [stopSoundEffect, ha]
  refine ⟨?_, hfix _ hnone, hfix s⟩
  rw [hfix _ hnone]
  cases ha : s.audioRef with
  | some a => simp [stopSoundEffect, ha]
  | none =>
    rw [hfix s ha]
    exact soundInv_of_reachable h ha

/-- C4 witness: stopping the freshly mounted hook twice keeps the
playing flag false and the second stop changes nothing. -/
theorem stopSoundEffect_idempotent_witness :
    (stopSoundEffect (stopSoundEffect (initState 0))).isPlaying = false ∧
    stopSoundEffect (stopSoundEffect (initState 0)) =
      stopSoundEffect (initState 0) ∧
    ((initState 0).audioRef = none →
      stopSoundEffect (initState 0) = initState 0) :=
  stopSoundEffect_idempotent (Reachable.init 0)

/-- C7: after teardown cleanup on any reachable hook state the audio
reference is gone, the playing flag is false, no timer is pending, the
hook is inactive, and any timer callback that still fires leaves the
state untouched and plays nothing. -/
theorem cleanup_silences {s : SoundState} (h : Reachable s) :
    (cleanup s).audioRef = none ∧ (cleanup s).isPlaying = false ∧
    (cleanup s).intervalRef = none ∧ (cleanup s).isActiveRef = false ∧
    (∀ url lp minI maxI rand,
      timerCallback url lp minI maxI rand (cleanup s) = (cleanup s, false)) := by
  have hnone : (cleanup s).audioRef = none := by
    cases ha : s.audioRef <;> simp [cleanup, stopSoundEffect, ha]
  have hact : (cleanup s).isActiveRef = false := rfl
  refine ⟨hnone, soundInv_cleanup (soundInv_of_reachable h) hnone, rfl, hact, ?_⟩
  intro url lp minI maxI rand
  simp [timerCallback, hact]

/-- C7 witness: tearing down the freshly mounted hook silences it and
makes every late timer callback a no-op. -/
theorem cleanup_silences_witness :
    (cleanup (initState 0)).audioRef = none ∧
    (cleanup (initState 0)).isPlaying = false ∧
    (cleanup (initState 0)).intervalRef = none ∧
    (cleanup (initState 0)).isActiveRef = false ∧
    (∀ url lp minI maxI rand,
      timerCallback url lp minI maxI rand (cleanup (initState 0)) =
        (cleanup (initState 0), false)) :=
  cleanup_silences (Reachable.init 0)


lemma filterMap_if_eq_filter {α : Type} (p : α → Bool) (l : List α) :
    (l.filterMap fun a => if p a then some a else none) = l.filter p := by
  induction l with
  | nil => rfl
  | cons a l ih =>
    by_cases h : p a <;> simp [List.filterMap_cons, List.filter_cons, h, ih]

/-- C8: the derived last message is the last element of the message
list whose sender or receiver is the card user, it is absent when no
element matches, and in that case the non-typing subtitle is the
no-messages placeholder. -/
theorem lastMessageFor_spec (userId ownerId : String)
    (messages : List ChatMessage) (typingUsers : List String) :
    lastMessageFor userId messages =
      (messages.filter fun m =>
        m.receiverId == userId || m.senderId == userId).getLast? ∧
    (typingUsers.contains userId = false →
      lastMessageFor userId messages = none →
      subtitleText typingUsers userId ownerId (lastMessageFor userId messages) =
        "No messages yet.") := by
  constructor
  · unfold lastMessageFor
    rw [filterMap_if_eq_filter]
  · intro ht hn
    rw [hn]
    have hmem : userId ∉ typingUsers := by simpa using ht
    simp [subtitleText, hmem, lastMessageText]

/-- Sample message between two bystanders for the C8 witness. -/
def strangerMsg : ChatMessage :=
  { senderId := "x", receiverId := "y", content := "hello",
    readByReceiver := true, attachmentUrl := none }

/-- C8 witness: with one message between two other users, the card for
user u derives no last message and shows the placeholder. -/
theorem lastMessageFor_spec_witness :
    lastMessageFor "u" [strangerMsg] =
      ([strangerMsg].filter fun m =>
        m.receiverId == "u" || m.senderId == "u").getLast? ∧
    subtitleText [] "u" "o" (lastMessageFor "u" [strangerMsg]) =
      "No messages yet." :=
  ⟨(lastMessageFor_spec "u" "o" [strangerMsg] []).1,
   (lastMessageFor_spec "u" "o" [strangerMsg] []).2 rfl (by decide)⟩

/-- C9: a user listed in typingUsers makes the subtitle exactly the
typing indicator whatever the messages are; otherwise the subtitle is
the last-message rendering, which alone carries the owner prefix. -/
theorem subtitleText_typing_precedence (typingUsers : List String)
    (userId ownerId : String) (lm : Option ChatMessage) :
    (typingUsers.contains userId = true →
      subtitleText typingUsers userId ownerId lm = "Typing...") ∧
    (typingUsers.contains userId = false →
      subtitleText typingUsers userId ownerId lm = lastMessageText ownerId lm) := by
  constructor <;> intro h
  · have hmem : userId ∈ typingUsers := by simpa using h
    simp [subtitleText, hmem]
  · have hmem : userId ∉ typingUsers := by simpa using h
    simp [subtitleText, hmem]

/-- C9 witness: a typing user shows the indicator and a non-typing user
falls back to the last-message text. -/
theorem subtitleText_typing_precedence_witness :
    subtitleText ["u"] "u" "o" none = "Typing..." ∧
    subtitleText [] "u" "o" none = lastMessageText "o" none :=
  ⟨(subtitleText_typing_precedence ["u"] "u" "o" none).1 (by decide),
   (subtitleText_typing_precedence [] "u" "o" none).2 rfl⟩

/-- C10: for a non-empty username the unguarded indexing is safe (the
error branch of the embedding is unreachable) and the avatar initial is
the uppercased first character. -/
theorem avatarInitial_defined (u : String) (h : u ≠ "") :
    (avatarInitial u).isSome = true ∧
    avatarInitial u = some (Char.toUpper u.data.head!).toString := by
  cases hu : u.data with
  | nil =>
    exfalso
    apply h
    cases u
    simp_all
  | cons c cs =>
    constructor <;> simp [avatarInitial, hu]

/-- C10 witness: the card for alice shows A. -/
theorem avatarInitial_defined_witness :
    (avatarInitial "alice").isSome = true ∧
    avatarInitial "alice" = some (Char.toUpper "alice".data.head!).toString :=
  avatarInitial_defined "alice" (by decide)

/-- C5 counterexample: clicking a card whose user is absent from
activeUsers plays no open sound and performs no store mutation, so not
every click triggers setCurrentlyChatting. -/
theorem handleSetCurrentlyChatting_counterexample :
    (handleSetCurrentlyChatting "u1" []).currentlyChatting = none ∧
    (handleSetCurrentlyChatting "u1" []).openPlayed = false :=
  ⟨rfl, rfl⟩

/-- C5 amended: every click plays the press sound; when activeUsers
holds a user whose id matches the card, the first such user is passed
to setCurrentlyChatting and the open sound plays; when no user matches,
the handler returns early with no mutation and no open sound. -/
theorem handleSetCurrentlyChatting_spec (userId : String)
    (activeUsers : List ServerUser) :
    (handleSetCurrentlyChatting userId activeUsers).pressPlayed = true ∧
    (∀ u, activeUsers.find? (fun v => v.userId == userId) = some u →
      (handleSetCurrentlyChatting userId activeUsers).openPlayed = true ∧
      (handleSetCurrentlyChatting userId activeUsers).currentlyChatting =
        some u ∧
      u.userId = userId) ∧
    (activeUsers.find? (fun v => v.userId == userId) = none →
      (handleSetCurrentlyChatting userId activeUsers).openPlayed = false ∧
      (handleSetCurrentlyChatting userId activeUsers).currentlyChatting =
        none) := by
  refine ⟨?_, ?_, ?_⟩
  · cases hf : activeUsers.find? (fun v => v.userId == userId) <;>
      simp [handleSetCurrentlyChatting, hf]
  · intro u hf
    have hid : u.userId = userId := by
      have hp := List.find?_some hf
      simpa using hp
    exact ⟨by simp [handleSetCurrentlyChatting, hf],
      by simp [handleSetCurrentlyChatting, hf], hid⟩
  · intro hf
    constructor <;> simp [handleSetCurrentlyChatting, hf]

/-- Sample active user for the C5 witness. -/
def sampleUser : ServerUser :=
  { userId := "u1", username := "alice", isOnline := true, lastSeen := 0,
    bgColor := "black", textColor := "white" }

/-- C5 witness: clicking the card of a listed active user plays both
sounds and mutates the store with that user. -/
theorem handleSetCurrentlyChatting_spec_witness :
    (handleSetCurrentlyChatting "u1" [sampleUser]).pressPlayed = true ∧
    (handleSetCurrentlyChatting "u1" [sampleUser]).openPlayed = true ∧
    (handleSetCurrentlyChatting "u1" [sampleUser]).currentlyChatting =
      some sampleUser ∧
    sampleUser.userId = "u1" :=
  ⟨(handleSetCurrentlyChatting_spec "u1" [sampleUser]).1,
   (handleSetCurrentlyChatting_spec "u1" [sampleUser]).2.1 sampleUser (by decide)⟩
